import Mathlib

/-!
Shallow embedding of the bus-servo driver in
`src/Scripts/Script Examples/BusControlScripts/LowLevelControl.py`
(class `BusServoController`): the checksum, the request encoder, the
ping/ack validation, the bus scan, the motion-command clamping and
parameter packing, and the READ-response decoding used by the five
telemetry readers.

Conventions used throughout:
* Python `bytes` values are `List Nat`, each entry a byte value;
  `bytes([...])` construction, which raises `ValueError` on an entry
  outside 0..255, is modelled by `bytesOf : List Nat → Option (List Nat)`.
* Python `&  0xFF` / `& 0xFFF` on a non-negative value is `% 256` / `% 4096`;
  on a possibly negative `Int` it is `% 256` (Lean's `Int.emod`, which like
  Python's `%` returns a non-negative result for a positive modulus).
* Python `~t` on an int is `-t - 1`.
* Python floats that feed the angle conversion are modelled as `ℚ`; the
  concrete inputs the claims use (360, -10, 180, multiples of 2048/4096)
  are exactly representable and exactly computed in binary floating point,
  so `ℚ` and float agree on them.
* An uncaught Python exception (IndexError in `_read_bytes`,
  `struct.error` in `struct.pack`) is `none`; a normal return is `some`.
-/

namespace BusServo

/-- `BusServoController._checksum`: `total = sum(data_bytes) & 0xFF;
return (~total) & 0xFF`. -/
def checksum (data_bytes : List Nat) : Nat :=
  let total := data_bytes.sum % 256
  Int.toNat ((-(total : Int) - 1) % 256)

/-- Python `bytes([...])`: succeeds iff every entry is a byte value. -/
def bytesOf (l : List Nat) : Option (List Nat) :=
  if l.all (· < 256) then some l else none

/-- `BusServoController.send_packet` (lines 17-25): builds
`0xFF 0xFF [ID] [LENGTH] [INSTRUCTION] [...PARAMS...] [CHECKSUM]` with
`length = len(params) + 2` and the checksum over `[ID, LENGTH,
INSTRUCTION] ++ params`.  `params` arrives as an already valid `bytes`
object in the source, so only `bytes([servo_id, length, instruction])`
can fail. -/
def send_packet (servo_id instruction : Nat) (params : List Nat) :
    Option (List Nat) := do
  let length := params.length + 2
  let head ← bytesOf [servo_id, length, instruction]
  let packet := head ++ params
  pure ([0xFF, 0xFF] ++ packet ++ [checksum packet])

/-- The response validation of `BusServoController.ping` (lines 36-42),
as a function of the 6-byte read `response`: header, ID and ack checksum
over `[resp[2], resp[3], resp[4]]` compared with `resp[5]`.  All list
accesses happen under the `len(response) >= 6` guard, so the Python code
cannot raise here and the function is total. -/
def ping_check (servo_id : Nat) (response : List Nat) : Bool :=
  if 6 ≤ response.length then
    if response.getD 0 0 == 0xFF && response.getD 1 0 == 0xFF &&
        response.getD 2 0 == servo_id then
      checksum [response.getD 2 0, response.getD 3 0, response.getD 4 0] ==
        response.getD 5 0
    else false
  else false

/-- `BusServoController.scan_servos` (lines 44-50): `for sid in
range(1, max_id+1): if self.ping(sid): found.append(sid)`, with the
per-ID ping outcome abstracted as the oracle `ping : Nat → Bool`. -/
def scan_servos (ping : Nat → Bool) (max_id : Nat) : List Nat :=
  (List.range' 1 max_id).foldl
    (fun found sid => if ping sid then found ++ [sid] else found) []

/-- The same loop as `scan_servos`, additionally recording in the first
component every ID passed to `ping`, in call order. -/
def scan_trace (ping : Nat → Bool) (max_id : Nat) : List Nat × List Nat :=
  (List.range' 1 max_id).foldl
    (fun st sid => (st.1 ++ [sid], if ping sid then st.2 ++ [sid] else st.2))
    ([], [])

/-- The angle-to-position conversion of `BusServoController.set_position`
(lines 55-59): clamp `angle_deg` into `[0, 360]`, then
`pos_val = int(angle_deg / 360.0 * 4096) & 0xFFF`, then
`if pos_val > 4095: pos_val = 4095`.  After the clamp the argument of
`int` is non-negative, so `int` (truncation toward zero) is the floor. -/
def pos_val (angle_deg : ℚ) : Nat :=
  let a1 := if angle_deg < 0 then 0 else angle_deg
  let a2 := if a1 > 360 then 360 else a1
  let p := (⌊a2 / 360 * 4096⌋).toNat % 4096
  if p > 4095 then 4095 else p

/-- The duration clamp of `set_position` (lines 62-64):
`time_val = 0 if time_ms is None else int(time_ms)`, clamped into
`[0, 65535]`. -/
def time_val (time_ms : Option ℤ) : ℤ :=
  let t := match time_ms with | none => 0 | some v => v
  let t1 := if t < 0 then 0 else t
  if t1 > 65535 then 65535 else t1

/-- The speed clamp of `set_position` (lines 66-68): `speed_val = 0 if
speed is None else int(speed)`, clamped into `[0, 1023]`. -/
def speed_val (speed : Option ℤ) : ℤ :=
  let s := match speed with | none => 0 | some v => v
  let s1 := if s < 0 then 0 else s
  if s1 > 1023 then 1023 else s1

/-- `struct.pack` of one `<H` field: an unsigned 16-bit little-endian
pair of bytes; `struct.error` (modelled `none`) outside 0..65535. -/
def packH (v : ℤ) : Option (List Nat) :=
  if 0 ≤ v ∧ v < 65536 then some [v.toNat % 256, v.toNat / 256] else none

/-- `struct.pack` of one `B` field: a single unsigned byte;
`struct.error` outside 0..255. -/
def packB (v : ℤ) : Option (List Nat) :=
  if 0 ≤ v ∧ v < 256 then some [v.toNat] else none

/-- The WRITE parameter bytes built by `set_position` (lines 70-75):
`struct.pack('<H H H B', pos_val, time_val, speed_val, acceleration & 0xFF)`
when an acceleration is supplied, `struct.pack('<H H H', ...)` otherwise. -/
def set_position_params (angle_deg : ℚ) (time_ms speed : Option ℤ)
    (acceleration : Option ℤ) : Option (List Nat) := do
  let pos : ℤ := pos_val angle_deg
  let t := time_val time_ms
  let s := speed_val speed
  match acceleration with
  | some a =>
      let acc := a % 256
      pure ((← packH pos) ++ (← packH t) ++ (← packH s) ++ (← packB acc))
  | none => pure ((← packH pos) ++ (← packH t) ++ (← packH s))

/-- The response validation of `BusServoController._read_bytes`
(lines 85-96), as a function of the raw response: `some []` models the
failure return `b''`, `some data` success, and `none` the uncaught
`IndexError` when the checksum index `2 + resp[3]` falls outside the
response.  The slice `resp[2 : 2+resp[3]]` is `(resp.drop 2).take
(resp.getD 3 0)` and the returned data `resp[5 : 5+length]`. -/
def read_decode (servo_id length : Nat) (resp : List Nat) :
    Option (List Nat) :=
  if resp.length < 6 + length then some []
  else if resp.getD 0 0 == 0xFF && resp.getD 1 0 == 0xFF &&
      resp.getD 2 0 == servo_id then
    let data_section := (resp.drop 2).take (resp.getD 3 0)
    if 2 + resp.getD 3 0 < resp.length then
      if checksum data_section == resp.getD (2 + resp.getD 3 0) 0 then
        some ((resp.drop 5).take length)
      else some []
    else none
  else some []

/-- The serial bus as the telemetry readers see it: the raw response
returned by `read_packet(6 + length)` after a READ of `length` bytes
from `start_addr`, i.e. a function of `(start_addr, length)`. -/
def Bus : Type := Nat → Nat → List Nat

/-- `BusServoController._read_bytes` (lines 79-96) on a bus oracle. -/
def read_bytes (servo_id : Nat) (bus : Bus) (start_addr length : Nat) :
    Option (List Nat) :=
  read_decode servo_id length (bus start_addr length)

/-- `BusServoController.read_position` (lines 99-106): two bytes at
0x38, little-endian, scaled by `* 360.0 / 4096.0`; `None` (inner `none`)
when `_read_bytes` returned `b''`. -/
def read_position (servo_id : Nat) (bus : Bus) : Option (Option ℚ) :=
  (read_bytes servo_id bus 0x38 2).map fun data =>
    if data ≠ [] then
      let p := data.getD 0 0 ||| (data.getD 1 0 <<< 8)
      some ((p : ℚ) * 360 / 4096)
    else none

/-- `BusServoController.read_speed` (lines 108-114): two bytes at 0x3A,
little-endian, masked `& 0x3FF`. -/
def read_speed (servo_id : Nat) (bus : Bus) : Option (Option Nat) :=
  (read_bytes servo_id bus 0x3A 2).map fun data =>
    if data ≠ [] then
      some ((data.getD 0 0 ||| (data.getD 1 0 <<< 8)) % 1024)
    else none

/-- `BusServoController.read_load` (lines 117-124): two bytes at 0x3C,
little-endian, masked `& 0x3FF`, scaled `/ 10.23`. -/
def read_load (servo_id : Nat) (bus : Bus) : Option (Option ℚ) :=
  (read_bytes servo_id bus 0x3C 2).map fun data =>
    if data ≠ [] then
      some ((((data.getD 0 0 ||| (data.getD 1 0 <<< 8)) % 1024 : Nat) : ℚ) /
        (1023 / 100))
    else none

/-- `BusServoController.read_voltage` (lines 127-132): one byte at 0x3E,
scaled `/ 10.0`. -/
def read_voltage (servo_id : Nat) (bus : Bus) : Option (Option ℚ) :=
  (read_bytes servo_id bus 0x3E 1).map fun data =>
    if data ≠ [] then some (((data.getD 0 0 : Nat) : ℚ) / 10) else none

/-- `BusServoController.read_temperature` (lines 135-139): one byte at
0x3F, returned raw. -/
def read_temperature (servo_id : Nat) (bus : Bus) : Option (Option Nat) :=
  (read_bytes servo_id bus 0x3F 1).map fun data =>
    if data ≠ [] then some (data.getD 0 0) else none

/-- A concrete bus for the telemetry partial-failure scenario: the
position register (0x38) answers with a response the decoder accepts and
whose data bytes are `[0x00, 0x08]` (raw position 2048); every other
register read gets an empty read. -/
def demo_bus : Bus := fun start_addr _ =>
  if start_addr = 0x38 then [0xFF, 0xFF, 1, 5, 0, 0, 8, 241] else []

end BusServo

namespace BusServo

/-- Helper: the accumulating loop of `scan_servos` appends exactly the
filtered elements. -/
theorem scan_foldl_filter (p : Nat → Bool) (l acc : List Nat) :
    l.foldl (fun found sid => if p sid then found ++ [sid] else found) acc =
      acc ++ l.filter p := by
  induction l generalizing acc with
  | nil => simp
  | cons x l ih =>
      cases hx : p x <;> simp [List.filter_cons, hx, ih]

/-- Helper: `scan_servos` is the filter of the scanned ID range. -/
theorem scan_servos_eq_filter (p : Nat → Bool) (max_id : Nat) :
    scan_servos p max_id = (List.range' 1 max_id).filter p := by
  unfold scan_servos
  rw [scan_foldl_filter]
  rfl

/-- Helper: the instrumented loop of `scan_trace`. -/
theorem scan_trace_foldl (p : Nat → Bool) (l t f : List Nat) :
    l.foldl
        (fun st sid => (st.1 ++ [sid], if p sid then st.2 ++ [sid] else st.2))
        (t, f) =
      (t ++ l, f ++ l.filter p) := by
  induction l generalizing t f with
  | nil => simp
  | cons x l ih =>
      cases hx : p x <;> simp [List.filter_cons, hx, ih]

/-- Helper: `scan_trace` pings exactly `range(1, max_id+1)` and collects
the filtered IDs. -/
theorem scan_trace_eq (p : Nat → Bool) (max_id : Nat) :
    scan_trace p max_id =
      (List.range' 1 max_id, (List.range' 1 max_id).filter p) := by
  unfold scan_trace
  rw [scan_trace_foldl]
  rfl

/-- Helper: `range' s n` is strictly sorted. -/
theorem range'_sorted_lt (s n : Nat) :
    List.Sorted (· < ·) (List.range' s n) := by
  induction n generalizing s with
  | zero => simp
  | succ n ih =>
      rw [List.range'_succ]
      exact List.Pairwise.cons
        (fun m hm => ((List.mem_range'_1).1 hm).1)
        (ih (s + 1))

end BusServo

namespace BusServo

/-- C1: a READ response of total length `6 + data_length` that is
well-formed in the claimed sense — header `0xFF 0xFF`, matching ID, and
trailing byte equal to the checksum over `[ID, LEN, ERROR, DATA...]`
with all data bytes included — is nevertheless rejected by
`_read_bytes`: the code compares the checksum of `resp[2 : 2+resp[3]]`
(which, for `LEN = data_length + 2`, stops one byte short of the last
data byte) against `resp[2+resp[3]]` (the last data byte, not the
trailing checksum).  Concretely, for ID 1 and `data_length = 2`, the
frame `FF FF 01 04 00 10 20 CA` carries the correct trailing checksum
`0xCA = checksum [1, 4, 0, 16, 32]`, yet decoding returns the failure
value `b''` instead of the data segment `[16, 32]`. -/
theorem read_decode_rejects_wellformed_response :
    checksum [1, 4, 0, 16, 32] = 0xCA ∧
    read_decode 1 2 [0xFF, 0xFF, 1, 4, 0, 16, 32, 0xCA] = some [] ∧
    some ([] : List Nat) ≠ some [16, 32] := by
  refine ⟨by decide, by decide, by decide⟩

/-- C2: the angle boundary table of the motion command, evaluated on the
code: `angle_deg = -10` and `angle_deg = 180` give the claimed positions
0 and 2048, but `angle_deg = 360` gives position 0, not the claimed
4095 — `int(360/360.0*4096) & 0xFFF = 4096 & 0xFFF = 0`, and the
`if pos_val > 4095` fixup can no longer fire after the mask. -/
theorem set_position_angle_boundaries :
    pos_val (-10) = 0 ∧ pos_val 180 = 2048 ∧ pos_val 360 = 0 ∧
    (0 : Nat) ≠ 4095 := by
  constructor
  · norm_num [pos_val]
  constructor
  · norm_num [pos_val]
    decide
  constructor
  · norm_num [pos_val]
    decide
  · decide

end BusServo

namespace BusServo

/-- C3: `_checksum` computes the bitwise complement of the byte-sum,
`(~ (sum(bytes) mod 256)) mod 256` (in integers, `~x` is `-x - 1` and
the final mask keeps the result in one byte); the same single
definition `checksum` is the one invoked both by the encoder
`send_packet` and by the decode validations `ping_check` and
`read_decode`; and the ack round trip holds: for every servo ID in
0..253, the 6-byte ack frame `[0xFF, 0xFF, id, 2, 0, checksum [id, 2,
0]]` built with this checksum passes ping's validation for that ID. -/
theorem checksum_formula_and_ack_roundtrip (data_bytes : List Nat)
    (servo_id : Nat) (h : servo_id ≤ 253) :
    (checksum data_bytes : ℤ) =
      (-((data_bytes.sum : ℤ) % 256) - 1) % 256 ∧
    ping_check servo_id
      [0xFF, 0xFF, servo_id, 2, 0, checksum [servo_id, 2, 0]] = true := by
  constructor
  · simp only [checksum]
    push_cast
    omega
  · simp [ping_check, List.getD]

/-- Witness for C3 at `data_bytes = [1, 2, 0]`, `servo_id = 5`. -/
theorem checksum_formula_and_ack_roundtrip_witness :
    (checksum [1, 2, 0] : ℤ) =
      (-((([1, 2, 0] : List Nat).sum : ℤ) % 256) - 1) % 256 ∧
    ping_check 5 [0xFF, 0xFF, 5, 2, 0, checksum [5, 2, 0]] = true :=
  checksum_formula_and_ack_roundtrip [1, 2, 0] 5 (by decide)

/-- C4: for every servo ID, instruction byte and parameter list that fit
in bytes (IDs, instruction and `len(params) + 2` below 256, as
`bytes([...])` demands), the encoded request frame is exactly
`[0xFF, 0xFF, ID, LEN, INSTRUCTION] ++ PARAMS ++ [CHECKSUM]` with
`LEN = len(params) + 2` and the checksum computed over
`[ID, LEN, INSTRUCTION] ++ PARAMS`. -/
theorem send_packet_frame_layout (servo_id instruction : Nat)
    (params : List Nat) (h1 : servo_id < 256) (h2 : instruction < 256)
    (h3 : params.length + 2 < 256) :
    send_packet servo_id instruction params =
      some ([0xFF, 0xFF, servo_id, params.length + 2, instruction] ++
        params ++
        [checksum ([servo_id, params.length + 2, instruction] ++ params)]) := by
  simp [send_packet, bytesOf, h1, h2, h3]

/-- Witness for C4: the READ request for two bytes at address 0x38. -/
theorem send_packet_frame_layout_witness :
    send_packet 1 2 [56, 2] =
      some ([0xFF, 0xFF, 1, ([56, 2] : List Nat).length + 2, 2] ++
        [56, 2] ++
        [checksum ([1, ([56, 2] : List Nat).length + 2, 2] ++ [56, 2])]) :=
  send_packet_frame_layout 1 2 [56, 2] (by decide) (by decide) (by decide)

/-- C5: ping's validation returns `true` exactly when the response has
length at least 6, starts with the header `0xFF 0xFF`, carries the
expected ID in its third byte, and its sixth byte equals the checksum of
`[ID, LEN, ERROR]` (the third through fifth bytes); on every other
response — a short or empty read included — it is `false`, and the
embedding is a total function, mirroring that the Python code indexes
the response only under the length guard and so cannot raise. -/
theorem ping_check_iff (servo_id : Nat) (response : List Nat) :
    ping_check servo_id response = true ↔
      6 ≤ response.length ∧ response.getD 0 0 = 0xFF ∧
      response.getD 1 0 = 0xFF ∧ response.getD 2 0 = servo_id ∧
      response.getD 5 0 =
        checksum [servo_id, response.getD 3 0, response.getD 4 0] := by
  unfold ping_check
  split_ifs with h1 h2
  · simp only [Bool.and_eq_true, beq_iff_eq] at h2
    obtain ⟨⟨e0, e1⟩, e2⟩ := h2
    rw [beq_iff_eq, e2]
    constructor
    · intro hc
      exact ⟨h1, e0, e1, rfl, hc.symm⟩
    · rintro ⟨-, -, -, -, hc⟩
      exact hc.symm
  · simp only [Bool.false_eq_true, false_iff]
    rintro ⟨-, e0, e1, e2, -⟩
    exact h2 (by rw [e0, e1, e2]; simp)
  · simp only [Bool.false_eq_true, false_iff]
    rintro ⟨h6, -⟩
    exact h1 h6

end BusServo

namespace BusServo

/-- C6: the scan loop pings exactly the IDs `1 .. max_id` in increasing
order (never ID 0), and returns exactly the IDs whose ping succeeded, in
ascending order; with a bus on which only IDs 1, 5 and 12 answer,
`scan(max_id = 20)` returns `[1, 5, 12]`. -/
theorem scan_servos_spec :
    (∀ (ping : Nat → Bool) (max_id : Nat),
        (scan_trace ping max_id).1 = List.range' 1 max_id ∧
        0 ∉ (scan_trace ping max_id).1 ∧
        List.Sorted (· < ·) (scan_trace ping max_id).1 ∧
        scan_servos ping max_id = ((scan_trace ping max_id).1).filter ping ∧
        List.Sorted (· < ·) (scan_servos ping max_id) ∧
        (∀ i, i ∈ scan_servos ping max_id ↔
            (1 ≤ i ∧ i ≤ max_id) ∧ ping i = true)) ∧
    scan_servos (fun i => i == 1 || i == 5 || i == 12) 20 = [1, 5, 12] := by
  constructor
  · intro ping max_id
    have ht : (scan_trace ping max_id).1 = List.range' 1 max_id := by
      rw [scan_trace_eq]
    have hs := scan_servos_eq_filter ping max_id
    refine ⟨ht, ?_, ?_, ?_, ?_, ?_⟩
    · rw [ht]
      intro h0
      have := (List.mem_range'_1).1 h0
      omega
    · rw [ht]
      exact range'_sorted_lt 1 max_id
    · rw [ht]
      exact hs
    · rw [hs]
      exact (range'_sorted_lt 1 max_id).filter ping
    · intro i
      rw [hs, List.mem_filter, List.mem_range'_1]
      constructor
      · rintro ⟨⟨a, b⟩, c⟩
        exact ⟨⟨a, by omega⟩, c⟩
      · rintro ⟨⟨a, b⟩, c⟩
        exact ⟨⟨a, by omega⟩, c⟩
  · decide

/-- Helper: the position register value is always below 4096. -/
theorem pos_val_lt_4096 (angle_deg : ℚ) : pos_val angle_deg < 4096 := by
  simp only [pos_val]
  split_ifs <;> omega

/-- Helper: the clamped duration lies in `[0, 65535]`. -/
theorem time_val_bounds (time_ms : Option ℤ) :
    0 ≤ time_val time_ms ∧ time_val time_ms ≤ 65535 := by
  cases time_ms <;> simp only [time_val] <;> split_ifs <;> omega

/-- Helper: the clamped speed lies in `[0, 1023]`. -/
theorem speed_val_bounds (speed : Option ℤ) :
    0 ≤ speed_val speed ∧ speed_val speed ≤ 1023 := by
  cases speed <;> simp only [speed_val] <;> split_ifs <;> omega

/-- Helper: `struct.pack('<H')` on an in-range natural. -/
theorem packH_natCast (n : Nat) (h : n < 65536) :
    packH (n : ℤ) = some [n % 256, n / 256] := by
  unfold packH
  rw [if_pos ⟨Int.natCast_nonneg n, by exact_mod_cast h⟩]
  simp

/-- Helper: `struct.pack('<H')` on an in-range integer. -/
theorem packH_int (v : ℤ) (h0 : 0 ≤ v) (h1 : v < 65536) :
    packH v = some [v.toNat % 256, v.toNat / 256] := by
  unfold packH
  rw [if_pos ⟨h0, h1⟩]

/-- Helper: `struct.pack('B')` on an in-range integer. -/
theorem packB_int (v : ℤ) (h0 : 0 ≤ v) (h1 : v < 256) :
    packB v = some [v.toNat] := by
  unfold packB
  rw [if_pos ⟨h0, h1⟩]

/-- Helper: the WRITE parameter bytes of `set_position`, in both shapes:
little-endian position, duration and speed, then the masked acceleration
byte when one is supplied. -/
theorem set_position_params_eq (angle_deg : ℚ) (time_ms speed : Option ℤ) :
    (∀ a : ℤ, set_position_params angle_deg time_ms speed (some a) =
        some [pos_val angle_deg % 256, pos_val angle_deg / 256,
          (time_val time_ms).toNat % 256, (time_val time_ms).toNat / 256,
          (speed_val speed).toNat % 256, (speed_val speed).toNat / 256,
          (a % 256).toNat]) ∧
    set_position_params angle_deg time_ms speed none =
      some [pos_val angle_deg % 256, pos_val angle_deg / 256,
        (time_val time_ms).toNat % 256, (time_val time_ms).toNat / 256,
        (speed_val speed).toNat % 256, (speed_val speed).toNat / 256] := by
  obtain ⟨ht0, ht1⟩ := time_val_bounds time_ms
  obtain ⟨hs0, hs1⟩ := speed_val_bounds speed
  have e1 : packH ((pos_val angle_deg : Nat) : ℤ) =
      some [pos_val angle_deg % 256, pos_val angle_deg / 256] :=
    packH_natCast _ (by have := pos_val_lt_4096 angle_deg; omega)
  have e2 : packH (time_val time_ms) =
      some [(time_val time_ms).toNat % 256, (time_val time_ms).toNat / 256] :=
    packH_int _ ht0 (by omega)
  have e3 : packH (speed_val speed) =
      some [(speed_val speed).toNat % 256, (speed_val speed).toNat / 256] :=
    packH_int _ hs0 (by omega)
  constructor
  · intro a
    have e4 : packB (a % 256) = some [(a % 256).toNat] :=
      packB_int _ (Int.emod_nonneg a (by norm_num))
        (Int.emod_lt_of_pos a (by norm_num))
    simp [set_position_params, e1, e2, e3, e4]
  · simp [set_position_params, e1, e2, e3]

/-- C7: the duration written to the device is the input clamped into
`[0, 65535]` and the speed is the input clamped into `[0, 1023]`
(`speed = 2000` becomes 1023, `duration_ms = -5` becomes 0), and no
combination of angle, duration, speed and acceleration inputs makes the
motion command reject or raise: the packed parameter bytes always
exist. -/
theorem set_position_clamp_policy :
    (∀ t : ℤ, time_val (some t) = max 0 (min t 65535)) ∧
    (∀ s : ℤ, speed_val (some s) = max 0 (min s 1023)) ∧
    time_val (some (-5)) = 0 ∧
    speed_val (some 2000) = 1023 ∧
    (∀ (angle_deg : ℚ) (time_ms speed acceleration : Option ℤ),
        (set_position_params angle_deg time_ms speed acceleration).isSome =
          true) := by
  refine ⟨?_, ?_, by decide, by decide, ?_⟩
  · intro t
    simp only [time_val]
    split_ifs <;> omega
  · intro s
    simp only [speed_val]
    split_ifs <;> omega
  · intro angle_deg time_ms speed acceleration
    obtain ⟨h1, h2⟩ := set_position_params_eq angle_deg time_ms speed
    cases acceleration with
    | none => rw [h2]; rfl
    | some a => rw [h1 a]; rfl

end BusServo

namespace BusServo

/-- C8 counterexample: the parameter payload without an acceleration is
6 bytes long, not 4 — position, duration and speed are three
little-endian 16-bit fields.  Concretely, for angle 180°, duration 0 and
speed 0 the payload is `[0x00, 0x08, 0, 0, 0, 0]`. -/
theorem set_position_params_not_four_bytes :
    (set_position_params 180 (some 0) (some 0) none).map List.length =
      some 6 ∧
    some (6 : Nat) ≠ some 4 := by
  constructor
  · have h := (set_position_params_eq 180 (some 0) (some 0)).2
    rw [h]
    rfl
  · decide

/-- C8 as amended: the WRITE parameter bytes are little-endian 16-bit
position, then little-endian 16-bit duration, then little-endian 16-bit
speed, optionally followed by the single acceleration byte masked with
`& 0xFF`, giving exactly two payload shapes distinguishable by length
alone — 6 parameter bytes without acceleration, 7 with. -/
theorem set_position_params_packing (angle_deg : ℚ)
    (time_ms speed : Option ℤ) (a : ℤ) :
    set_position_params angle_deg time_ms speed (some a) =
      some [pos_val angle_deg % 256, pos_val angle_deg / 256,
        (time_val time_ms).toNat % 256, (time_val time_ms).toNat / 256,
        (speed_val speed).toNat % 256, (speed_val speed).toNat / 256,
        (a % 256).toNat] ∧
    set_position_params angle_deg time_ms speed none =
      some [pos_val angle_deg % 256, pos_val angle_deg / 256,
        (time_val time_ms).toNat % 256, (time_val time_ms).toNat / 256,
        (speed_val speed).toNat % 256, (speed_val speed).toNat / 256] ∧
    (set_position_params angle_deg time_ms speed (some a)).map List.length =
      some 7 ∧
    (set_position_params angle_deg time_ms speed none).map List.length =
      some 6 := by
  obtain ⟨h1, h2⟩ := set_position_params_eq angle_deg time_ms speed
  exact ⟨h1 a, h2, by rw [h1 a]; rfl, by rw [h2]; rfl⟩

/-- C9: each telemetry reader depends only on its own register's READ
exchange — two buses agreeing on that register get identical results —
so per-register failures yield partial data, never an all-or-nothing
result; on the concrete bus where the position register answers with an
accepted frame carrying raw position 2048 and the load register read
comes back empty, position decodes to 180° while load is unavailable. -/
theorem telemetry_readers_independent :
    (∀ (b b' : Bus) (servo_id : Nat), b 0x38 2 = b' 0x38 2 →
        read_position servo_id b = read_position servo_id b') ∧
    (∀ (b b' : Bus) (servo_id : Nat), b 0x3A 2 = b' 0x3A 2 →
        read_speed servo_id b = read_speed servo_id b') ∧
    (∀ (b b' : Bus) (servo_id : Nat), b 0x3C 2 = b' 0x3C 2 →
        read_load servo_id b = read_load servo_id b') ∧
    (∀ (b b' : Bus) (servo_id : Nat), b 0x3E 1 = b' 0x3E 1 →
        read_voltage servo_id b = read_voltage servo_id b') ∧
    (∀ (b b' : Bus) (servo_id : Nat), b 0x3F 1 = b' 0x3F 1 →
        read_temperature servo_id b = read_temperature servo_id b') ∧
    read_position 1 demo_bus = some (some 180) ∧
    read_load 1 demo_bus = some none := by
  refine ⟨?_, ?_, ?_, ?_, ?_, ?_, ?_⟩
  · intro b b' servo_id h
    unfold read_position read_bytes
    rw [h]
  · intro b b' servo_id h
    unfold read_speed read_bytes
    rw [h]
  · intro b b' servo_id h
    unfold read_load read_bytes
    rw [h]
  · intro b b' servo_id h
    unfold read_voltage read_bytes
    rw [h]
  · intro b b' servo_id h
    unfold read_temperature read_bytes
    rw [h]
  · have hb : read_bytes 1 demo_bus 0x38 2 = some [0, 8] := by decide
    simp only [read_position, hb, Option.map_some']
    norm_num [List.getD, Nat.shiftLeft_eq, Nat.zero_or]
    intro hc
    exact absurd hc (by decide)
  · have hb : read_bytes 1 demo_bus 0x3C 2 = some [] := by decide
    simp [read_load, hb]

/-- C10: ping ignores the device-reported error byte — for every servo
ID, LEN byte and error byte `e` in 0..255, the 6-byte response
`[0xFF, 0xFF, id, LEN, e, checksum [id, LEN, e]]` makes ping's
validation return `true`, and consequently the scan over such a bus
counts the servo as found exactly like a healthy one. -/
theorem ping_ignores_error_byte (servo_id len_byte e : Nat)
    (he : e ≤ 255) :
    ping_check servo_id
      [0xFF, 0xFF, servo_id, len_byte, e,
        checksum [servo_id, len_byte, e]] = true ∧
    ∀ max_id, 1 ≤ servo_id → servo_id ≤ max_id →
      servo_id ∈ scan_servos
        (fun s => ping_check s
          [0xFF, 0xFF, s, len_byte, e, checksum [s, len_byte, e]])
        max_id := by
  constructor
  · simp [ping_check, List.getD]
  · intro max_id hlo hhi
    rw [scan_servos_eq_filter, List.mem_filter, List.mem_range'_1]
    refine ⟨⟨hlo, by omega⟩, ?_⟩
    simp [ping_check, List.getD]

/-- Witness for C10 at `servo_id = 3`, `len_byte = 2`, `e = 7`. -/
theorem ping_ignores_error_byte_witness :
    ping_check 3 [0xFF, 0xFF, 3, 2, 7, checksum [3, 2, 7]] = true ∧
    ∀ max_id, 1 ≤ 3 → 3 ≤ max_id →
      3 ∈ scan_servos
        (fun s => ping_check s [0xFF, 0xFF, s, 2, 7, checksum [s, 2, 7]])
        max_id :=
  ping_ignores_error_byte 3 2 7 (by decide)

end BusServo
